import Mathlib

/-!
Verification of the Driftguard DS calibration utility core.

Shallow embedding, in Lean 4, of the HID device-cache / feature-report
transport layer (`utils_hid.py`) and of the device discovery, connection-type
probe, calibration protocol and polling-loop teardown logic (`main_app.py`)
of the Driftguard DualSense calibration utility, together with theorems
settling the specification claims about them.

Conventions of the embedding:
* Python byte strings / HID responses are `List Nat` (each element a byte
  value; callers guarantee `< 256` where the byte range matters).
* The module-level handle cache `_open_devices` is an explicit association
  list `Cache` from device paths to handle identifiers (`Nat`); opened
  handle objects are always truthy in Python, so cache membership is the
  `lookup`.
* I/O behaviour of the OS/HID library (results of `get_feature_report`,
  `send_feature_report`, `read`, `open_path`) is passed in as explicit
  parameters; a raised `hid.HIDException` or other exception is an
  `Except`-style value.
* Functions that close handles also report the list of handle identifiers
  they closed, so that resource claims ("the handle is closed") are
  observable.
-/

namespace Driftguard

/-- A device-path → open-handle-id cache, mirroring `_open_devices`. -/
abbrev Cache := List (String × Nat)

/-- Python dict deletion of a key (`del _open_devices[dev_path]`). -/
def cacheErase (c : Cache) (p : String) : Cache :=
  c.filter (fun e => e.1 ≠ p)

/-- Python dict insertion (`_open_devices[dev_path] = device`). -/
def cacheInsert (c : Cache) (p : String) (h : Nat) : Cache :=
  cacheErase c p ++ [(p, h)]

/-- Exceptions raised by the `hid` library: `hid.HIDException` carries a
message string; anything else is an unspecified `Exception`. -/
inductive HidErr where
  | hidExc (msg : String)
  | otherExc
deriving DecidableEq

/-- Boolean list-prefix test used to implement Python substring search. -/
def startsWithChars : List Char → List Char → Bool
  | [], _ => true
  | _ :: _, [] => false
  | a :: as, b :: bs => a == b && startsWithChars as bs

/-- Boolean substring search on character lists. -/
def listContains (pat : List Char) : List Char → Bool
  | [] => pat.isEmpty
  | s :: rest => startsWithChars pat (s :: rest) || listContains pat rest

/-- Python `pat in s` on strings. -/
def strContains (s pat : String) : Bool :=
  listContains pat.toList s.toList

/-- Python `s.lower()` (ASCII as used on exception messages). -/
def pyLower (s : String) : String :=
  String.mk (s.toList.map Char.toLower)

/-- The disconnect test of `hid_get_feature_report`:
`"No such device" in str(e) or "failed to read" in str(e).lower()`. -/
def disconnectGetMsg (msg : String) : Bool :=
  strContains msg "No such device" || strContains (pyLower msg) "failed to read"

/-- The disconnect test of `hid_set_feature_report`:
`"No such device" in str(e) or "failed to write" in str(e).lower()`. -/
def disconnectSetMsg (msg : String) : Bool :=
  strContains msg "No such device" || strContains (pyLower msg) "failed to write"

/-- Embedding of `close_hid_device(dev_path)`: closes a cached handle and evicts it;
logged no-op when the path is absent.  Returns the new cache and the list
of handle ids closed by the call. -/
def close_hid_device (c : Cache) (p : String) : Cache × List Nat :=
  match c.lookup p with
  | some h => (cacheErase c p, [h])
  | none => (c, [])

/-- Embedding of `open_hid_device(dev_path)`: returns the cached handle when present,
otherwise attempts an OS open (`openOk` tells whether `open_path` succeeds;
`newId` is the fresh handle object on success).  Returns the handle (or
`none` on failure) and the new cache. -/
def open_hid_device (c : Cache) (p : String) (openOk : Bool) (newId : Nat) :
    Option Nat × Cache :=
  match c.lookup p with
  | some h => (some h, c)
  | none =>
    if openOk then (some newId, cacheInsert c p newId)
    else (none, cacheErase c p)

/-- Embedding of `hid_get_feature_report(dev_path, report_id, size)`.
`beh` is the outcome of `device.get_feature_report`, either a raised
exception or a response list (the empty list standing for a falsy
response).  The outer `Except Unit` is the `ValueError` raised when
`report_id` is out of range (the `size` type check is type-level here).
Returns the response (or `none`), the new cache and the closed handles. -/
def hid_get_feature_report (c : Cache) (p : String) (report_id : Nat)
    (openOk : Bool) (newId : Nat) (beh : Except HidErr (List Nat)) :
    Except Unit (Option (List Nat) × Cache × List Nat) :=
  if ¬ report_id ≤ 0xFF then .error () else
  match open_hid_device c p openOk newId with
  | (none, c1) => .ok (none, c1, [])
  | (some _, c1) =>
    match beh with
    | .ok response =>
      if response.isEmpty then .ok (none, c1, [])
      else .ok (some response, c1, [])
    | .error (.hidExc msg) =>
      if disconnectGetMsg msg then
        let (c2, closed) := close_hid_device c1 p
        .ok (none, c2, closed)
      else .ok (none, c1, [])
    | .error .otherExc => .ok (none, c1, [])

/-- Embedding of `hid_set_feature_report(dev_path, report_id, data)`.
`beh` is the outcome of `device.send_feature_report([report_id] + data)`:
a raised exception or the returned integer (negative on failure).
Returns the success flag, the new cache and the closed handles. -/
def hid_set_feature_report (c : Cache) (p : String) (report_id : Nat)
    (data : List Nat) (openOk : Bool) (newId : Nat)
    (beh : Except HidErr Int) : Bool × Cache × List Nat :=
  match open_hid_device c p openOk newId with
  | (none, c1) => (false, c1, [])
  | (some _, c1) =>
    let _report := report_id :: data
    match beh with
    | .ok result =>
      if result < 0 then (false, c1, []) else (true, c1, [])
    | .error (.hidExc msg) =>
      if disconnectSetMsg msg then
        let (c2, closed) := close_hid_device c1 p
        (false, c2, closed)
      else (false, c1, [])
    | .error .otherExc => (false, c1, [])

/-- Outcome of the read loop of `is_device_responsive`: a non-empty read
(`success`), `tries` empty reads (`exhausted`), or a raised exception. -/
inductive ProbeLoopOut where
  | success
  | exhausted
  | raised (e : HidErr)
deriving DecidableEq

/-- The `for _ in range(tries)` read loop of `is_device_responsive`; `reads`
is the sequence of outcomes of `device.read(64)`, one per attempted try. -/
def probeLoop : List (Except HidErr (List Nat)) → ProbeLoopOut
  | [] => .exhausted
  | .ok data :: rest => if data.isEmpty then probeLoop rest else .success
  | .error e :: _ => .raised e

/-- Observable outcome of `is_device_responsive`: its return value, the
cache after the call, the handle ids closed during the call (by
`close_hid_device` or by the `finally` close of a temporary handle), and
the temporarily opened handle id if one was opened. -/
structure ProbeOut where
  responsive : Bool
  cache : Cache
  closedIds : List Nat
  tempOpened : Option Nat
deriving DecidableEq

/-- Embedding of `is_device_responsive(dev_path, tries, delay)`.  Uses the cached handle
when present, otherwise opens a temporary one (`openOk` tells whether that
open succeeds, `tempId` is the fresh handle).  A cached handle raising a
HID exception containing "No such device" is evicted via
`close_hid_device`; the `finally` clause closes a temporarily opened handle
on every path.  (The `if not device: return False` after a successful open
is unreachable, handle objects being truthy.) -/
def is_device_responsive (c : Cache) (p : String) (openOk : Bool)
    (tempId : Nat) (reads : List (Except HidErr (List Nat))) : ProbeOut :=
  match c.lookup p with
  | some _ =>
    -- cached handle: opened_temporarily = False
    match probeLoop reads with
    | .success => ⟨true, c, [], none⟩
    | .exhausted => ⟨false, c, [], none⟩
    | .raised (.hidExc msg) =>
      if strContains msg "No such device" then
        let (c2, closed) := close_hid_device c p
        ⟨false, c2, closed, none⟩
      else ⟨false, c, [], none⟩
    | .raised .otherExc => ⟨false, c, [], none⟩
  | none =>
    if ¬ openOk then ⟨false, c, [], none⟩
    else
      -- opened_temporarily = True: never evicts, finally closes tempId
      match probeLoop reads with
      | .success => ⟨true, c, [tempId], some tempId⟩
      | .exhausted => ⟨false, c, [tempId], some tempId⟩
      | .raised _ => ⟨false, c, [tempId], some tempId⟩

/-! Part 2, from main_app.py: constants, discovery, connection-type probe. -/

/-- The table `PS_SUPPORTED_DEVICES`, the static supported-device table of
`main_app.py` (a dict keyed by uppercase-hex (VID, PID) strings). -/
def PS_SUPPORTED_DEVICES : List ((String × String) × String) :=
  [(("054C", "0DF2"), "Sony DualSense Edge")]

/-- Constant `GAMEPAD_USAGE_PAGE = 0x01` (Generic Desktop Controls). -/
def GAMEPAD_USAGE_PAGE : Nat := 0x01

/-- Constant `GAMEPAD_USAGE = 0x05`. -/
def GAMEPAD_USAGE : Nat := 0x05

/-- Constant `JOYSTICK_USAGE = 0x04`. -/
def JOYSTICK_USAGE : Nat := 0x04

/-- Python `key in PS_SUPPORTED_DEVICES` (dict key membership). -/
def supportedVidPid (vp : String × String) : Bool :=
  (PS_SUPPORTED_DEVICES.lookup vp).isSome

/-- One entry of `hid.enumerate()` (the fields `main_app.py` reads). -/
structure DevInfo where
  usage_page : Nat
  usage : Nat
  path : String
  vendor_id : Nat
  product_id : Nat
  product_string : Option String

/-- One entry of the list built by `list_hid_gamepads`. -/
structure Gamepad where
  vid : String
  pid : String
  path : String
  name : String
deriving DecidableEq

/-- Uppercase hex digit for `n < 16`. -/
def hexDigitU (n : Nat) : Char :=
  if n < 10 then Char.ofNat (48 + n) else Char.ofNat (55 + n)

/-- Uppercase hex digits of `n` (no padding), most significant first. -/
def toHexU (n : Nat) : List Char :=
  if _h : n < 16 then [hexDigitU n]
  else toHexU (n / 16) ++ [hexDigitU (n % 16)]
termination_by n
decreasing_by exact Nat.div_lt_self (by omega) (by omega)

/-- Python `f"{n:04X}"`: uppercase hex, zero-padded to at least 4 digits. -/
def hexUpper4 (n : Nat) : String :=
  let ds := toHexU n
  String.mk (List.replicate (4 - ds.length) '0' ++ ds)

/-- Embedding of `list_hid_gamepads()`: filters `hid.enumerate()` entries to gamepad /
joystick usage, keeps those whose path passes `is_device_responsive`
(abstracted by the `responsive` predicate on paths), and records their
hex-formatted VID/PID, path and product name. -/
def list_hid_gamepads (devices : List DevInfo) (responsive : String → Bool) :
    List Gamepad :=
  match devices with
  | [] => []
  | dev_info :: rest =>
    if dev_info.usage_page = GAMEPAD_USAGE_PAGE ∧
        (dev_info.usage = JOYSTICK_USAGE ∨ dev_info.usage = GAMEPAD_USAGE) then
      if responsive dev_info.path then
        ⟨hexUpper4 dev_info.vendor_id, hexUpper4 dev_info.product_id,
          dev_info.path, dev_info.product_string.getD "Unknown Device"⟩ ::
          list_hid_gamepads rest responsive
      else list_hid_gamepads rest responsive
    else list_hid_gamepads rest responsive

/-- Embedding of `find_supported_sony_controller_hid()`: first listed gamepad whose
(vid, pid) is a key of `PS_SUPPORTED_DEVICES`. -/
def find_supported_sony_controller_hid (gamepads : List Gamepad) :
    Option Gamepad :=
  gamepads.find? (fun dev => supportedVidPid (dev.vid, dev.pid))

/-- Python truthiness of an optional path string (`None` and `""` falsy). -/
def pyTruthyStr : Option String → Bool
  | none => false
  | some s => !(s == "")

/-- Embedding of `check_sony_controller_connection_type(dev_path)`: the string assigned
to `ps_controller_conn_type`.  `data` is the outcome of the
`hid_get_feature_report(path, 0x83, 64)` exchange inside the `try` block:
`.error` when it raises, otherwise its returned value (`none` = Python
`None`). -/
def check_sony_controller_connection_type (dev_path : Option String)
    (data : Except Unit (Option (List Nat))) : String :=
  if ¬ pyTruthyStr dev_path then "" else
  match data with
  | .error _ => "(Error)"
  | .ok d =>
    match d with
    | none => "(Unknown)"
    | some l =>
      if ¬ l.isEmpty ∧ l.length > 61 then
        if l.getD 60 0 + l.getD 61 0 > 0 then "(BT)" else "(USB)"
      else "(Unknown)"

/-! Part 3, from main_app.py: session state and calibration protocol. -/

/-- The module-level session globals of `main_app.py` that the calibration
protocol and the polling loop read and write. -/
structure SessionState where
  is_joystick_connected : Bool
  joystick : Option Nat
  active_dev_path : Option String
  joystick_vid_pid : String × String
  ps_controller_conn_type : String
  joystick_axes : List Float

/-- Embedding of `apply_calibration_to_controller(calibration_data_list)`.
`set_result` is the value `hid_set_feature_report` would return if called;
the second component of the result counts how many times
`hid_set_feature_report` was invoked.  (The `isinstance(..., list)` guard
holds by typing here; `int(b)` cannot raise on `Nat` entries.) -/
def apply_calibration_to_controller (st : SessionState)
    (calibration_data_list : List Nat) (set_result : Bool) : Bool × Nat :=
  if ¬ (st.is_joystick_connected ∧ pyTruthyStr st.active_dev_path) then
    (false, 0)
  else if st.ps_controller_conn_type = "(BT)" then
    (false, 0)
  else
    let _payload := 0x0C :: 0x01 :: calibration_data_list
    (set_result, 1)

/-- Embedding of `get_calibration_data_from_ds()`.  `set_success` is the result of the
`hid_set_feature_report(path, 0x80, [0x0C,0x04,0x00])` request;
`calib_report` the result of the `hid_get_feature_report(path, 0x81, 64)`
response read (`none` = Python `None`). -/
def get_calibration_data_from_ds (st : SessionState) (set_success : Bool)
    (calib_report : Option (List Nat)) : Option (List Nat) :=
  if ¬ (st.is_joystick_connected ∧ pyTruthyStr st.active_dev_path) then none
  else if ¬ supportedVidPid st.joystick_vid_pid then none
  else if ¬ set_success then none
  else
    match calib_report with
    | none => none
    | some r =>
      if r.isEmpty then none
      else if r.headD 0 ≠ 0x81 then none
      else if r.length ≥ 32 then some ((r.drop 4).take 28)
      else none

/-! Helpers for `get_controller_serial`: Python `bytes(...).hex()`,
`bytes.fromhex`, `bytes.decode("ascii", errors="ignore")`, `str.strip()`
and `str.upper()`, restricted to the byte/ASCII inputs they receive. -/

/-- Lowercase hex digit for `n < 16` (as produced by `bytes.hex()`). -/
def hexDigitL (n : Nat) : Char :=
  if n < 10 then Char.ofNat (48 + n) else Char.ofNat (87 + n)

/-- The two lowercase hex digits of one byte. -/
def byteToHex (b : Nat) : List Char :=
  [hexDigitL (b / 16), hexDigitL (b % 16)]

/-- Python `bytes(l).hex()` as a character list. -/
def bytesToHex (l : List Nat) : List Char :=
  l.flatMap byteToHex

/-- Value of one hex digit character, `none` for a non-hex character. -/
def hexCharVal (c : Char) : Option Nat :=
  if '0' ≤ c ∧ c ≤ '9' then some (c.toNat - 48)
  else if 'a' ≤ c ∧ c ≤ 'f' then some (c.toNat - 87)
  else if 'A' ≤ c ∧ c ≤ 'F' then some (c.toNat - 55)
  else none

/-- Python `bytes.fromhex` on an even-length spaceless hex string (the only shape
it receives here): `none` models the raised `ValueError`. -/
def fromHexPairs : List Char → Option (List Nat)
  | [] => some []
  | [_] => none
  | c1 :: c2 :: rest =>
    match hexCharVal c1, hexCharVal c2, fromHexPairs rest with
    | some hi, some lo, some bs => some ((hi * 16 + lo) :: bs)
    | _, _, _ => none

/-- Python `bytes(l).decode("ascii", errors="ignore")`: bytes over 0x7F dropped. -/
def asciiDecodeIgnore (l : List Nat) : List Char :=
  l.filterMap (fun b => if b < 128 then some (Char.ofNat b) else none)

/-- The ASCII characters Python's `str.strip()` removes (codepoints
0x09–0x0D, 0x1C–0x1F and 0x20). -/
def pyIsSpace (c : Char) : Bool :=
  (9 ≤ c.toNat ∧ c.toNat ≤ 13) ∨ (28 ≤ c.toNat ∧ c.toNat ≤ 32)

/-- Python `str.strip()` on a character list. -/
def pyStripL (l : List Char) : List Char :=
  ((l.dropWhile pyIsSpace).reverse.dropWhile pyIsSpace).reverse

/-- Python `str.upper()` on one ASCII character. -/
def pyUpperChar (c : Char) : Char :=
  if 'a' ≤ c ∧ c ≤ 'z' then Char.ofNat (c.toNat - 32) else c

/-- Python `str.upper()` on a character list. -/
def pyUpperL (l : List Char) : List Char :=
  l.map pyUpperChar

/-- Embedding of `get_controller_serial()`.  `set_success` is the result of the
`hid_set_feature_report(path, 0x80, [0x01,0x13,0x01])` request;
`serial_list` the result of the `hid_get_feature_report(path, 0x81, 64)`
response read (`none` = Python `None`). -/
def get_controller_serial (st : SessionState) (set_success : Bool)
    (serial_list : Option (List Nat)) : String :=
  if ¬ (st.is_joystick_connected ∧ pyTruthyStr st.active_dev_path) then
    "Controller not connected."
  else if ¬ supportedVidPid st.joystick_vid_pid then
    "Not available (Unsupported Device)"
  else if ¬ set_success then
    "Serial request failed."
  else
    match serial_list with
    | none => "Serial not found (no data)."
    | some r =>
      if r.isEmpty then "Serial not found (no data)."
      else if r.headD 0 ≠ 0x81 then "Serial not found (wrong report)."
      else
        let full_report_hex := bytesToHex r
        let serial_hex_segment := (full_report_hex.drop 8).take 34
        if serial_hex_segment.isEmpty then "Serial not found (no segment)."
        else if serial_hex_segment.length % 2 ≠ 0 then
          "Serial not found (hex format error)."
        else
          match fromHexPairs serial_hex_segment with
          | none => "Serial not found (decode error)."
          | some bs =>
            let decoded_serial := pyUpperL (pyStripL (asciiDecodeIgnore bs))
            if decoded_serial.isEmpty then "Serial not found (empty)."
            else String.mk decoded_serial

/-- The serial the spec promises (for a refinement comparison with
`get_controller_serial`): "extract bytes[4:21] (17 bytes) → ASCII-decode
ignoring invalid bytes → trim/uppercase", stated on the raw response. -/
def serial_from_spec (r : List Nat) : String :=
  String.mk (pyUpperL (pyStripL (asciiDecodeIgnore ((r.drop 4).take 17))))

/-! Part 4, from main_app.py: the Connected-state tick of the polling loop. -/

/-- One tick of `joystick_background_loop` in the Connected state
(`is_joystick_connected` true): the per-tick health check and axis read,
lines 460–491.  `responsive` is the result of
`is_device_responsive(active_dev_path, tries=1, delay=0.01)` (only
consulted when joystick and path are truthy, by short-circuiting);
`axesRead` is the outcome of the `joystick.get_numaxes()` /
`joystick.get_axis(i)` reads: `.error` for a raised `pygame.error`,
otherwise the axis count and the axis values.  Returns the HID cache and
session state after the tick. -/
def joystick_tick_connected (c : Cache) (st : SessionState)
    (responsive : Bool) (axesRead : Except Unit (Nat × (Nat → Float))) :
    Cache × SessionState :=
  if st.joystick.isNone ∨ ¬ pyTruthyStr st.active_dev_path ∨ ¬ responsive then
    let c1 := match st.active_dev_path with
      | some p => if p ≠ "" then (close_hid_device c p).1 else c
      | none => c
    (c1, { is_joystick_connected := false, joystick := none,
           active_dev_path := none, joystick_vid_pid := ("", ""),
           ps_controller_conn_type := "",
           joystick_axes := List.replicate 6 (0.0 : Float) })
  else
    match axesRead with
    | .ok (axes_count, ax) =>
      let lx := if axes_count ≥ 1 then ax 0 else 0.0
      let ly := if axes_count ≥ 2 then ax 1 else 0.0
      let rx := if axes_count ≥ 3 then ax 2 else 0.0
      let ry := if axes_count ≥ 4 then ax 3 else 0.0
      let lt := if axes_count ≥ 5 then ax 4 else 0.0
      let rt := if axes_count ≥ 6 then ax 5 else 0.0
      (c, { st with joystick_axes := [lx, ly, rx, ry, lt, rt] })
    | .error _ =>
      let c1 := match st.active_dev_path with
        | some p => if p ≠ "" then (close_hid_device c p).1 else c
        | none => c
      (c1, { st with is_joystick_connected := false, joystick := none,
                     active_dev_path := none,
                     joystick_axes := List.replicate 6 (0.0 : Float) })

/-! Part 5: derived definitions used to state the claims, and concrete
inputs used by witnesses. -/

/-- The gamepad record `list_hid_gamepads` builds for one enumerated
device. -/
def mkGamepad (d : DevInfo) : Gamepad :=
  ⟨hexUpper4 d.vendor_id, hexUpper4 d.product_id, d.path,
    d.product_string.getD "Unknown Device"⟩

/-- Conjunction of the three discovery conditions on one enumerated
device: usage-page/usage filter, responsiveness probe, allow-list
membership of the hex-formatted (VID, PID). -/
def qualifies (responsive : String → Bool) (d : DevInfo) : Bool :=
  decide (d.usage_page = GAMEPAD_USAGE_PAGE ∧
      (d.usage = JOYSTICK_USAGE ∨ d.usage = GAMEPAD_USAGE)) &&
    responsive d.path &&
    supportedVidPid (hexUpper4 d.vendor_id, hexUpper4 d.product_id)

/-- A concrete connected DualSense Edge session over USB. -/
def stUSB : SessionState :=
  ⟨true, some 1, some "devpath", ("054C", "0DF2"), "(USB)",
    List.replicate 6 (0.0 : Float)⟩

/-- A concrete connected DualSense Edge session over Bluetooth. -/
def stBT : SessionState :=
  ⟨true, some 1, some "devpath", ("054C", "0DF2"), "(BT)",
    List.replicate 6 (0.0 : Float)⟩

/-- A 64-byte 0x81 response whose serial slice (bytes 4..20) is all ASCII
spaces, so the decoded serial strips to the empty string. -/
def rBlank : List Nat := 0x81 :: 0 :: 0 :: 0 :: List.replicate 60 0x20

/-- A 64-byte 0x81 response carrying "ABC" at offset 4 and zero padding. -/
def rABC : List Nat := 0x81 :: 0 :: 0 :: 0 :: 65 :: 66 :: 67 ::
  List.replicate 57 0

/-- A 64-byte 0x81 calibration response with distinct payload bytes. -/
def rCalib : List Nat := 0x81 :: (List.range 63).map (fun i => i + 1)

/-! Part 6: supporting lemmas. -/

theorem lookup_cacheErase_self (c : Cache) (p : String) :
    (cacheErase c p).lookup p = none := by
  induction c with
  | nil => rfl
  | cons e rest ih =>
    rcases e with ⟨q, v⟩
    by_cases hq : q = p
    · simpa [cacheErase, hq] using ih
    · have hne : (p == q) = false := by
        simp only [beq_eq_false_iff_ne, ne_eq]
        exact fun h => hq h.symm
      simp only [cacheErase, List.filter_cons] at ih ⊢
      simp only [ne_eq, hq, not_false_iff, decide_true_eq_true, if_true]
      simp only [List.lookup_cons, hne]
      exact ih

theorem find?_cons_if {α : Type} (p : α → Bool) (a : α) (l : List α) :
    List.find? p (a :: l) = if p a then some a else List.find? p l := by
  rw [List.find?_cons]
  cases hpa : p a <;> simp

theorem hexCharVal_hexDigitL : ∀ n < 16, hexCharVal (hexDigitL n) = some n := by
  decide

theorem fromHexPairs_bytesToHex (l : List Nat) (hl : ∀ b ∈ l, b < 256) :
    fromHexPairs (bytesToHex l) = some l := by
  induction l with
  | nil => rfl
  | cons b t ih =>
    have hb : b < 256 := hl b (by simp)
    have ht := ih (fun x hx => hl x (by simp [hx]))
    have h1 := hexCharVal_hexDigitL (b / 16) (by omega)
    have h2 := hexCharVal_hexDigitL (b % 16) (by omega)
    have key : fromHexPairs
        (hexDigitL (b / 16) :: hexDigitL (b % 16) :: bytesToHex t) =
        some ((b / 16 * 16 + b % 16) :: t) := by
      simp only [fromHexPairs, h1, h2, ht]
    have hb' : b / 16 * 16 + b % 16 = b := by omega
    show fromHexPairs
        (hexDigitL (b / 16) :: hexDigitL (b % 16) :: bytesToHex t) =
      some (b :: t)
    rw [key, hb']

theorem bytesToHex_drop (k : Nat) : ∀ l : List Nat,
    (bytesToHex l).drop (2 * k) = bytesToHex (l.drop k) := by
  induction k with
  | zero => intro l; simp
  | succ k ih =>
    intro l
    cases l with
    | nil => simp [bytesToHex]
    | cons b t =>
      show (hexDigitL (b / 16) :: hexDigitL (b % 16) ::
          bytesToHex t).drop (2 * (k + 1)) = bytesToHex ((b :: t).drop (k + 1))
      rw [show 2 * (k + 1) = 2 * k + 1 + 1 by ring]
      rw [List.drop_succ_cons, List.drop_succ_cons, List.drop_succ_cons]
      exact ih t

theorem bytesToHex_take (k : Nat) : ∀ l : List Nat,
    (bytesToHex l).take (2 * k) = bytesToHex (l.take k) := by
  induction k with
  | zero => intro l; simp [bytesToHex]
  | succ k ih =>
    intro l
    cases l with
    | nil => simp [bytesToHex]
    | cons b t =>
      show (hexDigitL (b / 16) :: hexDigitL (b % 16) ::
          bytesToHex t).take (2 * (k + 1)) = bytesToHex ((b :: t).take (k + 1))
      rw [show 2 * (k + 1) = 2 * k + 1 + 1 by ring]
      rw [List.take_succ_cons, List.take_succ_cons, List.take_succ_cons]
      rw [ih t]
      rfl

theorem bytesToHex_length (l : List Nat) :
    (bytesToHex l).length = 2 * l.length := by
  induction l with
  | nil => rfl
  | cons b t ih =>
    show (hexDigitL (b / 16) :: hexDigitL (b % 16) :: bytesToHex t).length =
      2 * (b :: t).length
    simp only [List.length_cons, ih]
    omega

theorem is_device_responsive_cached (c : Cache) (p : String) (openOk : Bool)
    (tempId h : Nat) (reads : List (Except HidErr (List Nat)))
    (hsome : c.lookup p = some h) :
    is_device_responsive c p openOk tempId reads =
      (match probeLoop reads with
      | .success => ⟨true, c, [], none⟩
      | .exhausted => ⟨false, c, [], none⟩
      | .raised (.hidExc msg) =>
        if strContains msg "No such device" then
          ⟨false, cacheErase c p, [h], none⟩
        else ⟨false, c, [], none⟩
      | .raised .otherExc => ⟨false, c, [], none⟩) := by
  unfold is_device_responsive
  rw [hsome]
  simp only []
  cases hpl : probeLoop reads with
  | success => rfl
  | exhausted => rfl
  | raised e =>
    cases e with
    | hidExc msg =>
      simp only []
      by_cases hm : strContains msg "No such device" = true
      · rw [if_pos hm, if_pos hm]
        have hclose : close_hid_device c p = (cacheErase c p, [h]) := by
          unfold close_hid_device
          rw [hsome]
        rw [hclose]
      · rw [if_neg hm, if_neg hm]
    | otherExc => rfl

theorem is_device_responsive_uncached (c : Cache) (p : String)
    (openOk : Bool) (tempId : Nat) (reads : List (Except HidErr (List Nat)))
    (hn : c.lookup p = none) :
    is_device_responsive c p openOk tempId reads =
      (if openOk then
        { responsive := (match probeLoop reads with
            | .success => true
            | _ => false),
          cache := c, closedIds := [tempId], tempOpened := some tempId }
      else ⟨false, c, [], none⟩) := by
  unfold is_device_responsive
  rw [hn]
  simp only []
  cases ho : openOk with
  | true =>
    rw [if_neg (by simp), if_pos rfl]
    cases hpl : probeLoop reads <;> rfl
  | false =>
    rw [if_pos (by simp), if_neg (by simp)]

/-! Part 7: the claims. -/

/-- **C1.** For every calibration payload, if the session's connection type
is Bluetooth ("(BT)"), `apply_calibration_to_controller` returns `False`
and performs zero `hid_set_feature_report` calls. -/
theorem C1_bluetooth_write_rejected (st : SessionState)
    (calibration_data_list : List Nat) (set_result : Bool)
    (hbt : st.ps_controller_conn_type = "(BT)") :
    apply_calibration_to_controller st calibration_data_list set_result =
      (false, 0) := by
  unfold apply_calibration_to_controller
  simp [hbt]

/-- Witness for C1: a concrete Bluetooth session rejects the write with no
HID call. -/
theorem C1_bluetooth_write_rejected_witness :
    stBT.ps_controller_conn_type = "(BT)" ∧
    apply_calibration_to_controller stBT [1, 2, 3] true = (false, 0) :=
  ⟨rfl, C1_bluetooth_write_rejected stBT [1, 2, 3] true rfl⟩

/-- **C9.** Closing is idempotent at the interface: when `path` is cached,
`close_hid_device` closes that handle and evicts the path, and a second
`close_hid_device` on the now-absent path is a no-op that raises nothing
and leaves the cache mapping unchanged. -/
theorem C9_close_idempotent (c : Cache) (p : String) (h : Nat)
    (hc : c.lookup p = some h) :
    close_hid_device c p = (cacheErase c p, [h]) ∧
    close_hid_device (close_hid_device c p).1 p =
      ((close_hid_device c p).1, []) := by
  have h1 : close_hid_device c p = (cacheErase c p, [h]) := by
    unfold close_hid_device
    rw [hc]
  refine ⟨h1, ?_⟩
  rw [h1]
  unfold close_hid_device
  rw [lookup_cacheErase_self]

/-- Witness for C9 on a concrete one-entry cache. -/
theorem C9_close_idempotent_witness :
    ([("devpath", 5)] : Cache).lookup "devpath" = some 5 ∧
    close_hid_device ((close_hid_device [("devpath", 5)] "devpath").1)
        "devpath" =
      ((close_hid_device [("devpath", 5)] "devpath").1, []) :=
  ⟨by decide, (C9_close_idempotent [("devpath", 5)] "devpath" 5 (by decide)).2⟩

/-- **C2.** In a connected supported session whose calibration request was
sent, a 0x81 response shorter than 32 bytes yields no payload, and a
response of at least 32 bytes whose first byte is 0x81 yields exactly
bytes 4 through 31 (28 bytes). -/
theorem C2_calibration_extraction (st : SessionState) (r : List Nat)
    (hconn : st.is_joystick_connected = true)
    (hpath : pyTruthyStr st.active_dev_path = true)
    (hvid : supportedVidPid st.joystick_vid_pid = true) :
    (r.length < 32 → get_calibration_data_from_ds st true (some r) = none) ∧
    (32 ≤ r.length → r.headD 0 = 0x81 →
      get_calibration_data_from_ds st true (some r) =
        some ((r.drop 4).take 28) ∧ ((r.drop 4).take 28).length = 28) := by
  have hmain : get_calibration_data_from_ds st true (some r) =
      (if r.isEmpty then none
       else if r.headD 0 ≠ 0x81 then none
       else if r.length ≥ 32 then some ((r.drop 4).take 28) else none) := by
    unfold get_calibration_data_from_ds
    simp [hconn, hpath, hvid]
  constructor
  · intro hlen
    rw [hmain]
    split
    · rfl
    · split
      · rfl
      · rw [if_neg (by omega)]
  · intro h32 h81
    have hne : ¬ r.isEmpty := by
      cases r with
      | nil => simp at h32
      | cons a t => simp
    constructor
    · rw [hmain, if_neg hne, if_neg (not_not_intro h81), if_pos h32]
    · simp only [List.length_take, List.length_drop]
      omega

/-- Witness for C2: the long-response branch on a concrete 64-byte report
and the short-response branch on a concrete 16-byte report. -/
theorem C2_calibration_extraction_witness :
    (get_calibration_data_from_ds stUSB true (some rCalib) =
        some ((rCalib.drop 4).take 28)) ∧
    (get_calibration_data_from_ds stUSB true
        (some (0x81 :: List.replicate 15 7)) = none) :=
  ⟨((C2_calibration_extraction stUSB rCalib rfl rfl (by decide)).2
      (by decide) (by decide)).1,
    (C2_calibration_extraction stUSB (0x81 :: List.replicate 15 7) rfl rfl
      (by decide)).1 (by decide)⟩

/-- **C3.** For the connection-type probe on a truthy device path: a raised
failure yields "(Error)", a missing response or one of length at most 61
yields "(Unknown)" (independently of its content, so bytes 60/61 are never
consulted), and a response longer than 61 bytes yields "(BT)" exactly when
bytes 60 and 61 sum positive, "(USB)" otherwise. -/
theorem C3_connection_type_probe (p : String) (l : List Nat) (hp : p ≠ "") :
    check_sony_controller_connection_type (some p) (.error ()) = "(Error)" ∧
    check_sony_controller_connection_type (some p) (.ok none) = "(Unknown)" ∧
    (l.length ≤ 61 →
      check_sony_controller_connection_type (some p) (.ok (some l)) =
        "(Unknown)") ∧
    (61 < l.length →
      check_sony_controller_connection_type (some p) (.ok (some l)) =
        (if 0 < l.getD 60 0 + l.getD 61 0 then "(BT)" else "(USB)")) := by
  have htr : pyTruthyStr (some p) = true := by
    simp [pyTruthyStr, hp]
  have hbody : check_sony_controller_connection_type (some p) (.ok (some l)) =
      if ¬ l.isEmpty ∧ l.length > 61 then
        (if l.getD 60 0 + l.getD 61 0 > 0 then "(BT)" else "(USB)")
      else "(Unknown)" := by
    unfold check_sony_controller_connection_type
    rw [htr, if_neg (by simp)]
  refine ⟨?_, ?_, ?_, ?_⟩
  · unfold check_sony_controller_connection_type
    rw [htr, if_neg (by simp)]
  · unfold check_sony_controller_connection_type
    rw [htr, if_neg (by simp)]
  · intro hlen
    rw [hbody, if_neg (fun hcon => absurd hcon.2 (by omega))]
  · intro hlen
    have hne : ¬ l.isEmpty = true := by
      cases l with
      | nil => simp at hlen
      | cons a t => simp
    rw [hbody, if_pos ⟨hne, hlen⟩]

/-- Witness for C3: concrete 61-byte (Unknown) and 62-byte (BT) responses. -/
theorem C3_connection_type_probe_witness :
    check_sony_controller_connection_type (some "devpath")
        (.ok (some (List.replicate 61 9))) = "(Unknown)" ∧
    check_sony_controller_connection_type (some "devpath")
        (.ok (some (List.replicate 60 0 ++ [2, 3]))) = "(BT)" :=
  ⟨(C3_connection_type_probe "devpath" (List.replicate 61 9)
      (by decide)).2.2.1 (by decide),
    ((C3_connection_type_probe "devpath" (List.replicate 60 0 ++ [2, 3])
      (by decide)).2.2.2 (by decide)).trans (by decide)⟩

/-- **C5** counterexample: the claim says the allow-list accepts product ID
0x0CE6 ("DualSense"); in the code `PS_SUPPORTED_DEVICES` has no such key,
so the membership test used in discovery rejects ("054C", "0CE6"). -/
theorem C5_allowlist_counterexample :
    supportedVidPid ("054C", "0CE6") = false ∧
    PS_SUPPORTED_DEVICES.lookup ("054C", "0CE6") = none := by
  constructor
  · rfl
  · rfl

/-- **C5** amended: the static allow-list contains exactly the single pair
(vendorId "054C", productId "0DF2") named "Sony DualSense Edge", and the
discovery membership test accepts that pair (and not "0CE6"). -/
theorem C5_allowlist_amended :
    PS_SUPPORTED_DEVICES = [(("054C", "0DF2"), "Sony DualSense Edge")] ∧
    supportedVidPid ("054C", "0DF2") = true ∧
    supportedVidPid ("054C", "0CE6") = false := by
  refine ⟨rfl, ?_, ?_⟩
  · rfl
  · rfl

/-- **C6.** When the transport raises a HID exception recognised as an
OS-level disconnect ("No such device" / "failed to read" for get, "No such
device" / "failed to write" for set) on a cached path, both operations
close and evict the cached handle and return their failure value (`none`
for get, `False` for set) instead of propagating the exception. -/
theorem C6_transport_disconnect_evicts (c : Cache) (p : String) (h : Nat)
    (report_id : Nat) (data : List Nat) (openOk : Bool) (newId : Nat)
    (gmsg smsg : String) (hc : c.lookup p = some h)
    (hrid : report_id ≤ 0xFF)
    (hg : disconnectGetMsg gmsg = true) (hs : disconnectSetMsg smsg = true) :
    hid_get_feature_report c p report_id openOk newId
        (.error (.hidExc gmsg)) = .ok (none, cacheErase c p, [h]) ∧
    hid_set_feature_report c p report_id data openOk newId
        (.error (.hidExc smsg)) = (false, cacheErase c p, [h]) := by
  constructor
  · unfold hid_get_feature_report
    rw [if_neg (not_not_intro hrid)]
    unfold open_hid_device
    rw [hc]
    simp only [hg, if_true]
    unfold close_hid_device
    rw [hc]
  · unfold hid_set_feature_report open_hid_device
    rw [hc]
    simp only [hs, if_true]
    unfold close_hid_device
    rw [hc]

/-- Witness for C6 on a concrete one-entry cache and concrete disconnect
messages. -/
theorem C6_transport_disconnect_evicts_witness :
    hid_get_feature_report [("devpath", 5)] "devpath" 0x81 true 9
        (.error (.hidExc "No such device")) =
      .ok (none, cacheErase [("devpath", 5)] "devpath", [5]) ∧
    hid_set_feature_report [("devpath", 5)] "devpath" 0x81 [1, 2] true 9
        (.error (.hidExc "Failed to write HID report")) =
      (false, cacheErase [("devpath", 5)] "devpath", [5]) :=
  C6_transport_disconnect_evicts [("devpath", 5)] "devpath" 5 0x81 [1, 2]
    true 9 "No such device" "Failed to write HID report" (by decide)
    (by decide) (by decide) (by decide)

/-- **C7.** Discovery returns precisely the first enumerated device that
passes the usage-page/usage filter, whose path passes the responsiveness
probe and whose hex-formatted (VID, PID) is in the allow-list, as its
gamepad record; in particular it returns `none` exactly when no enumerated
device satisfies all three conditions (so dropping the probe or the
allow-list condition for every device means no match). -/
theorem C7_discovery_first_qualifying (devices : List DevInfo)
    (responsive : String → Bool) :
    find_supported_sony_controller_hid (list_hid_gamepads devices responsive)
        = (devices.find? (qualifies responsive)).map mkGamepad ∧
    (find_supported_sony_controller_hid (list_hid_gamepads devices responsive)
        = none ↔ ∀ d ∈ devices, qualifies responsive d = false) := by
  have main : ∀ ds : List DevInfo,
      find_supported_sony_controller_hid (list_hid_gamepads ds responsive) =
        (ds.find? (qualifies responsive)).map mkGamepad := by
    intro ds
    induction ds with
    | nil => rfl
    | cons d rest ih =>
      by_cases h1 : d.usage_page = GAMEPAD_USAGE_PAGE ∧
          (d.usage = JOYSTICK_USAGE ∨ d.usage = GAMEPAD_USAGE)
      · by_cases h2 : responsive d.path = true
        · by_cases h3 : supportedVidPid
              (hexUpper4 d.vendor_id, hexUpper4 d.product_id) = true
          · have hq : qualifies responsive d = true := by
              simp [qualifies, h1, h2, h3]
            unfold list_hid_gamepads
            rw [if_pos h1, if_pos h2]
            unfold find_supported_sony_controller_hid
            rw [find?_cons_if, find?_cons_if, if_pos hq,
              if_pos (show supportedVidPid
                ((⟨hexUpper4 d.vendor_id, hexUpper4 d.product_id, d.path,
                  d.product_string.getD "Unknown Device"⟩ : Gamepad).vid,
                  (⟨hexUpper4 d.vendor_id, hexUpper4 d.product_id, d.path,
                  d.product_string.getD "Unknown Device"⟩ : Gamepad).pid) = true
                from h3)]
            rfl
          · have hq : qualifies responsive d = false := by
              simp only [Bool.not_eq_true] at h3
              simp [qualifies, h3]
            unfold list_hid_gamepads
            rw [if_pos h1, if_pos h2]
            unfold find_supported_sony_controller_hid at ih ⊢
            rw [find?_cons_if, find?_cons_if, if_neg (by simpa using h3),
              if_neg (by simp [hq])]
            exact ih
        · have hq : qualifies responsive d = false := by
            simp only [Bool.not_eq_true] at h2
            simp [qualifies, h2]
          unfold list_hid_gamepads
          rw [if_pos h1, if_neg h2]
          rw [find?_cons_if, if_neg (by simp [hq])]
          exact ih
      · have hq : qualifies responsive d = false := by
          simp [qualifies, h1]
        unfold list_hid_gamepads
        rw [if_neg h1]
        rw [find?_cons_if, if_neg (by simp [hq])]
        exact ih
  refine ⟨main devices, ?_⟩
  rw [main devices]
  simp only [Option.map_eq_none', List.find?_eq_none, Bool.not_eq_true]

/-- **C4** counterexample: a 64-byte 0x81 response whose bytes 4..20 are
all ASCII spaces.  The claim says the returned serial equals the trimmed,
uppercased ASCII decoding of bytes 4..20 (here the empty string), but the
code returns the failure string "Serial not found (empty)." instead. -/
theorem C4_serial_counterexample :
    rBlank.length = 64 ∧ rBlank.headD 0 = 0x81 ∧
    serial_from_spec rBlank = "" ∧
    get_controller_serial stUSB true (some rBlank) =
      "Serial not found (empty)." ∧
    get_controller_serial stUSB true (some rBlank) ≠
      serial_from_spec rBlank := by
  refine ⟨by decide, by decide, by decide, by decide, by decide⟩

/-- **C4** amended: for every 64-byte 0x81 response (byte-valued) in a
connected supported session whose serial request was sent, whenever the
trimmed, uppercased ASCII decoding of bytes 4..20 is non-empty the
returned serial equals exactly that decoding; when the decoding trims to
the empty string the code instead returns the descriptive failure string
"Serial not found (empty).". -/
theorem C4_serial_decoding_amended (st : SessionState) (r : List Nat)
    (hconn : st.is_joystick_connected = true)
    (hpath : pyTruthyStr st.active_dev_path = true)
    (hvid : supportedVidPid st.joystick_vid_pid = true)
    (hlen : r.length = 64) (hfirst : r.headD 0 = 0x81)
    (hbytes : ∀ b ∈ r, b < 256) :
    (serial_from_spec r ≠ "" →
      get_controller_serial st true (some r) = serial_from_spec r) ∧
    (serial_from_spec r = "" →
      get_controller_serial st true (some r) =
        "Serial not found (empty).") := by
  have hne : ¬ r.isEmpty := by
    cases r with
    | nil => simp at hlen
    | cons a t => simp
  have hseg : ((bytesToHex r).drop 8).take 34 =
      bytesToHex ((r.drop 4).take 17) := by
    rw [show (8 : Nat) = 2 * 4 by ring, bytesToHex_drop,
      show (34 : Nat) = 2 * 17 by ring, bytesToHex_take]
  have hseglen : (((bytesToHex r).drop 8).take 34).length = 34 := by
    rw [hseg, bytesToHex_length]
    have h17 : ((r.drop 4).take 17).length = 17 := by
      simp only [List.length_take, List.length_drop, hlen]
      omega
    omega
  have hfrom : fromHexPairs (((bytesToHex r).drop 8).take 34) =
      some ((r.drop 4).take 17) := by
    rw [hseg]
    exact fromHexPairs_bytesToHex _
      (fun b hb => hbytes b (List.drop_subset 4 r (List.take_subset 17 _ hb)))
  have hnemp : (((bytesToHex r).drop 8).take 34).isEmpty = false := by
    cases hcase : ((bytesToHex r).drop 8).take 34 with
    | nil => rw [hcase] at hseglen; simp at hseglen
    | cons a t => rfl
  have hmod : ¬ ((((bytesToHex r).drop 8).take 34).length % 2 ≠ 0) := by
    rw [hseglen]
    omega
  have hmain : get_controller_serial st true (some r) =
      (if (pyUpperL (pyStripL (asciiDecodeIgnore ((r.drop 4).take 17)))).isEmpty
       then "Serial not found (empty)."
       else
        String.mk (pyUpperL (pyStripL (asciiDecodeIgnore
          ((r.drop 4).take 17))))) := by
    unfold get_controller_serial
    rw [if_neg (by simp [hconn, hpath]), if_neg (by simp [hvid]),
      if_neg (by simp)]
    show (if r.isEmpty then "Serial not found (no data)."
      else if r.headD 0 ≠ 0x81 then "Serial not found (wrong report)."
      else if (((bytesToHex r).drop 8).take 34).isEmpty then
        "Serial not found (no segment)."
      else if (((bytesToHex r).drop 8).take 34).length % 2 ≠ 0 then
        "Serial not found (hex format error)."
      else
        match fromHexPairs (((bytesToHex r).drop 8).take 34) with
        | none => "Serial not found (decode error)."
        | some bs =>
          if (pyUpperL (pyStripL (asciiDecodeIgnore bs))).isEmpty then
            "Serial not found (empty)."
          else String.mk (pyUpperL (pyStripL (asciiDecodeIgnore bs)))) = _
    rw [if_neg hne, if_neg (not_not_intro hfirst),
      if_neg (by rw [hnemp]; simp), if_neg hmod, hfrom]
  constructor
  · intro hns
    have hdec : (pyUpperL (pyStripL (asciiDecodeIgnore
        ((r.drop 4).take 17)))).isEmpty = false := by
      cases hcase : pyUpperL (pyStripL (asciiDecodeIgnore
          ((r.drop 4).take 17))) with
      | nil =>
        exact absurd (by unfold serial_from_spec; rw [hcase]) hns
      | cons a t => rfl
    rw [hmain, hdec]
    rfl
  · intro he
    have hdec : pyUpperL (pyStripL (asciiDecodeIgnore
        ((r.drop 4).take 17))) = [] := by
      have hd := congrArg String.data he
      simpa [serial_from_spec] using hd
    rw [hmain, hdec]
    rfl

/-- Witness for C4's amended claim: a concrete response carrying "ABC"
followed by NUL padding decodes to exactly the spec-side serial. -/
theorem C4_serial_decoding_amended_witness :
    serial_from_spec rABC ≠ "" ∧
    get_controller_serial stUSB true (some rABC) = serial_from_spec rABC :=
  ⟨by decide,
    (C4_serial_decoding_amended stUSB rABC rfl rfl (by decide) (by decide)
      (by decide) (by decide)).1 (by decide)⟩

/-- **C8** counterexample: a Connected-state tick whose axis read raises
does tear the session down (flag false, axes zeroed), but the claim's
"session identity fields are cleared" fails: `joystick_vid_pid` (and the
connection-type label) keep their pre-teardown values on this path. -/
theorem C8_teardown_counterexample :
    ((joystick_tick_connected [("devpath", 5)] stUSB true
        (.error ())).2).is_joystick_connected = false ∧
    ((joystick_tick_connected [("devpath", 5)] stUSB true
        (.error ())).2).joystick_axes = List.replicate 6 (0.0 : Float) ∧
    ((joystick_tick_connected [("devpath", 5)] stUSB true
        (.error ())).2).joystick_vid_pid = ("054C", "0DF2") ∧
    ((joystick_tick_connected [("devpath", 5)] stUSB true
        (.error ())).2).joystick_vid_pid ≠ ("", "") ∧
    ((joystick_tick_connected [("devpath", 5)] stUSB true
        (.error ())).2).ps_controller_conn_type = "(USB)" := by
  refine ⟨rfl, rfl, rfl, by decide, rfl⟩

/-- **C8** amended: in the Connected state a failed per-tick check tears
the session down within that same tick, but the two teardown paths differ.
A missing joystick, missing device path or failed responsiveness probe
clears the connected flag, the joystick, the path, the (VID, PID) pair and
the connection-type label, and zeroes all six axes.  A raised axis-read
error clears the connected flag, the joystick and the path and zeroes the
axes, but leaves `joystick_vid_pid` and `ps_controller_conn_type`
unchanged. -/
theorem C8_teardown_amended (c : Cache) (st : SessionState)
    (responsive : Bool) (axesRead : Except Unit (Nat × (Nat → Float)))
    (_hconn : st.is_joystick_connected = true) :
    ((st.joystick.isNone ∨ ¬ pyTruthyStr st.active_dev_path ∨
        ¬ responsive) →
      (joystick_tick_connected c st responsive axesRead).2 =
        ⟨false, none, none, ("", ""), "",
          List.replicate 6 (0.0 : Float)⟩) ∧
    (st.joystick.isNone = false → pyTruthyStr st.active_dev_path = true →
      responsive = true → axesRead = .error () →
      (joystick_tick_connected c st responsive axesRead).2 =
        { st with is_joystick_connected := false, joystick := none,
                  active_dev_path := none,
                  joystick_axes := List.replicate 6 (0.0 : Float) }) := by
  constructor
  · intro hfail
    unfold joystick_tick_connected
    rw [if_pos hfail]
  · intro h1 h2 h3 h4
    unfold joystick_tick_connected
    rw [if_neg (by simp [h1, h2, h3]), h4]

/-- Witness for C8's amended claim: a concrete failed-probe tick clears
everything. -/
theorem C8_teardown_amended_witness :
    stUSB.is_joystick_connected = true ∧
    (joystick_tick_connected [("devpath", 5)] stUSB false
        (.ok (0, fun _ => 0.0))).2 =
      ⟨false, none, none, ("", ""), "", List.replicate 6 (0.0 : Float)⟩ :=
  ⟨rfl,
    (C8_teardown_amended [("devpath", 5)] stUSB false (.ok (0, fun _ => 0.0))
      rfl).1 (Or.inr (Or.inr (by decide)))⟩

/-- **C10** counterexample: the claim says the cache mapping for the path
is unchanged by the probe, but when the cached handle's read raises a HID
"No such device" exception the probe evicts the cached entry. -/
theorem C10_probe_cache_counterexample :
    ([("devpath", 5)] : Cache).lookup "devpath" = some 5 ∧
    (is_device_responsive [("devpath", 5)] "devpath" true 9
        [.error (.hidExc "No such device")]).cache.lookup "devpath" =
      none ∧
    (is_device_responsive [("devpath", 5)] "devpath" true 9
        [.error (.hidExc "No such device")]).cache ≠ [("devpath", 5)] := by
  refine ⟨rfl, rfl, by decide⟩

/-- **C10** amended: the probe closes any handle it opened itself on every
outcome and never adds it to the cache (when the path is uncached the
cache is returned unchanged and the temporary handle, opened exactly when
the open succeeds, is always among the closed handles), and a cache-owned
handle is left in the cache untouched except when the probed read raises a
HID exception containing "No such device", in which case that cached
handle is closed and evicted. -/
theorem C10_probe_frame_amended (c : Cache) (p : String) (openOk : Bool)
    (tempId : Nat) (reads : List (Except HidErr (List Nat))) :
    (c.lookup p = none →
      (is_device_responsive c p openOk tempId reads).cache = c ∧
      ((is_device_responsive c p openOk tempId reads).tempOpened =
        if openOk then some tempId else none) ∧
      (∀ t, (is_device_responsive c p openOk tempId reads).tempOpened =
          some t →
        t ∈ (is_device_responsive c p openOk tempId reads).closedIds)) ∧
    (∀ h, c.lookup p = some h →
      (is_device_responsive c p openOk tempId reads).tempOpened = none ∧
      (((is_device_responsive c p openOk tempId reads).cache = c ∧
          (is_device_responsive c p openOk tempId reads).closedIds = []) ∨
        (∃ msg, probeLoop reads = .raised (.hidExc msg) ∧
          strContains msg "No such device" = true ∧
          (is_device_responsive c p openOk tempId reads).cache =
            cacheErase c p ∧
          (is_device_responsive c p openOk tempId reads).closedIds =
            [h]))) := by
  constructor
  · intro hn
    rw [is_device_responsive_uncached c p openOk tempId reads hn]
    cases ho : openOk with
    | true =>
      refine ⟨rfl, rfl, ?_⟩
      intro t ht
      simp at ht ⊢
      omega
    | false =>
      refine ⟨rfl, rfl, ?_⟩
      intro t ht
      simp at ht
  · intro h hsome
    rw [is_device_responsive_cached c p openOk tempId h reads hsome]
    cases hpl : probeLoop reads with
    | success => exact ⟨rfl, Or.inl ⟨rfl, rfl⟩⟩
    | exhausted => exact ⟨rfl, Or.inl ⟨rfl, rfl⟩⟩
    | raised e =>
      cases e with
      | hidExc msg =>
        simp only []
        by_cases hm : strContains msg "No such device" = true
        · rw [if_pos hm]
          exact ⟨rfl, Or.inr ⟨msg, rfl, hm, rfl, rfl⟩⟩
        · rw [if_neg hm]
          exact ⟨rfl, Or.inl ⟨rfl, rfl⟩⟩
      | otherExc => exact ⟨rfl, Or.inl ⟨rfl, rfl⟩⟩

/-- Witness for C10's amended claim: probing an uncached path with a
successful temporary open leaves the cache unchanged and closes the
temporary handle. -/
theorem C10_probe_frame_amended_witness :
    ([] : Cache).lookup "newpath" = none ∧
    ((is_device_responsive [] "newpath" true 7 [.ok [1]]).cache = [] ∧
      ((is_device_responsive [] "newpath" true 7 [.ok [1]]).tempOpened =
        if (true : Bool) then some 7 else none) ∧
      (∀ t, (is_device_responsive [] "newpath" true 7
          [.ok [1]]).tempOpened = some t →
        t ∈ (is_device_responsive [] "newpath" true 7
          [.ok [1]]).closedIds)) :=
  ⟨rfl, (C10_probe_frame_amended [] "newpath" true 7 [.ok [1]]).1 rfl⟩

end Driftguard
